import Mathlib

/-!
Shallow embedding of `deep_identity_master_app.py` (a single-file Streamlit
dashboard) and proofs of the specification claims about it.

Modelling conventions:
  * A Python `dict` is an association list `List (String × α)` read with
    `List.lookup` (first match wins; Python dicts have unique keys, so the
    first match is the only match).
  * The Streamlit secret store access `st.secrets.get("OPENAI_API_KEY", None)`
    either returns an `Option String` or raises; it is modelled as a value of
    `Except Unit (Option String)` supplied to the function.
  * The environment lookup `os.environ.get("OPENAI_API_KEY")` is an
    `Option String` supplied to the function.
  * An `OpenAI` client object is represented by the api key it was
    constructed with, so `get_openai_client` returns `Option String`
    (`none` = Python `None`, `some k` = `OpenAI(api_key=k)`).
  * The outbound call `client.chat.completions.create(...)` is modelled by a
    function `service : String → Except String Response` from the user-prompt
    text to either a raised exception (carrying its `str` rendering) or a
    response value.  `generate_text_report` additionally reports whether the
    service was invoked (field `apiCalled`), making "makes no outbound call"
    statable.
  * The results-store file state is `Option (Except Unit Json)`: `none` when
    the file does not exist, `some (Except.error ())` when it exists but its
    content is not valid JSON (so `json.load` raises), `some (Except.ok j)`
    when its content is valid JSON parsing to `j` (e.g. a file containing
    exactly the two characters of an empty JSON object parses to
    `Json.obj []`).
-/

namespace DeepIdentity

/-- JSON values, as produced by Python `json.load`.  Numbers are modelled as
integers (the store holds integer scores only). -/
inductive Json where
  | null : Json
  | bool (b : Bool) : Json
  | num (n : Int) : Json
  | str (s : String) : Json
  | arr (xs : List Json) : Json
  | obj (kvs : List (String × Json)) : Json

/-- Whether a JSON value is an ordered collection (a JSON array). -/
def Json.isArr : Json → Bool
  | .arr _ => true
  | _ => false

/-- `POTENTIALS`, the nine fixed potential names in canonical order
(source lines 12–22). -/
def POTENTIALS : List String :=
  ["Аметист", "Гранат", "Цитрин", "Сапфир", "Гелиодор",
   "Изумруд", "Янтарь", "Рубин", "Шунгит"]

/-- `COLUMNS`, the three fixed axis names (source line 23). -/
def COLUMNS : List String := ["c1", "c2", "c3"]

/-- A per-potential row of axis scores: Python `Dict[str, int]`. -/
abbrev Row := List (String × Int)

/-- A `combined` mapping: Python `Dict[str, Dict[str, int]]`. -/
abbrev Combined := List (String × Row)

/-- Python `d.get(k, default)` on a dict modelled as an association list. -/
def dictGetD (d : List (String × α)) (k : String) (dflt : α) : α :=
  (List.lookup k d).getD dflt

/-- Python truthiness of an `Optional[str]`: `None` and the empty string are
falsy, every other string is truthy. -/
def truthy : Option String → Bool
  | none => false
  | some v => v != ""

/-- `get_openai_client` (source lines 28–38): resolve the api key from
`st.secrets` first, falling back to the environment variable when the secret
store raises or yields a falsy value; return `None` when no truthy key is
found, otherwise a client built from the key. -/
def get_openai_client (secrets : Except Unit (Option String))
    (env : Option String) : Option String :=
  let key0 : Option String :=
    match secrets with
    | .ok v => v
    | .error _ => none
  let key1 : Option String := if truthy key0 then key0 else env
  if truthy key1 then key1 else none

/-- `load_results` (source lines 43–50): empty list when the file is absent
or `json.load` raises; otherwise whatever JSON value the file parses to is
returned unchanged. -/
def load_results (store : Option (Except Unit Json)) : Json :=
  match store with
  | none => Json.arr []
  | some (.error _) => Json.arr []
  | some (.ok j) => j

/-- One returned chat message. -/
structure Message where
  content : String
deriving DecidableEq, Repr

/-- One completion choice of a service response. -/
structure Choice where
  message : Message
deriving DecidableEq, Repr

/-- A response of the text-generation service: a list of completion
choices. -/
structure Response where
  choices : List Choice
deriving DecidableEq, Repr

/-- The fixed warning returned when no api key is found
(source lines 58–61; Python juxtaposes the two string literals). -/
def missing_key_warning : String :=
  "⚠️ OpenAI API ключ не найден (ни в st.secrets, ни в переменной окружения OPENAI_API_KEY).\n" ++
  "Добавь ключ в настройки, чтобы генерировать отчёты."

/-- The warning built from a raised service exception `e`
(source line 111, with the interpolated text of the exception). -/
def openai_error_warning (e : String) : String :=
  "⚠️ Ошибка при обращении к OpenAI: " ++ e

/-- One line of the score table rendered into the prompt
(source lines 66–69). -/
def score_line (combined : Combined) (p : String) : String :=
  let row : Row := dictGetD combined p []
  p ++ ": c1=" ++ toString (dictGetD row "c1" (0 : Int)) ++
  "  c2=" ++ toString (dictGetD row "c2" (0 : Int)) ++
  "  c3=" ++ toString (dictGetD row "c3" (0 : Int))

/-- The list of score-table lines, one per potential in canonical order
(source lines 64–69). -/
def table_lines (combined : Combined) : List String :=
  POTENTIALS.map (score_line combined)

/-- `table_text` (source line 70). -/
def table_text (combined : Combined) : String :=
  String.intercalate "\n" (table_lines combined)

/-- The user prompt (source lines 72–98): persona preamble, the rendered
score table, the verbatim free text between triple quotes, five numbered
instructions and the tone directive. -/
def build_prompt (tbl : String) (full_text : String) : String :=
  "\nТы — мастер системы потенциалов (Аметист, Гранат, Цитрин, Сапфир, Гелиодор, Изумруд, Янтарь, Рубин, Шунгит).\nУ тебя есть итоговая карта 3×3 по столбцам:\n- c1: интуиция / восприятие / причина,\n- c2: процесс / творчество / проявление,\n- c3: результат / инструмент / действие.\n\nВот числовая карта по потенциалам:\n\n" ++
  tbl ++
  "\n\nА вот свободные ответы человека по трём блокам (детство, работа, окружение):\n\n\"\"\"" ++
  full_text ++
  "\"\"\"\n\n\nСделай структурированный отчёт:\n\n1. Краткое резюме (3–5 предложений): ядро личности и направление пути.\n2. Сильные потенциалы (топ 3–4): как они проявляются и в чём ресурс.\n3. Потенциалы, которые пока недоиспользованы, но к ним тянет — куда можно смещать фокус.\n4. Возможные смещения и перекосы (аккуратно, без диагнозов).\n5. Практические шаги на 4–6 недель: конкретные действия для движения в свою реализацию.\n\nПиши по-русски, тоном: тёплый, честный, поддерживающий, без эзотерической «воды», но с глубиной.\nОпирайся и на цифры, и на текст.\n"

/-- Body of the `try` block of `generate_text_report` (source lines 100–111):
a raised call is caught and turned into a warning; a returned response is
indexed at choice 0 (raising `IndexError`, also caught, when empty), and
that choice's message content is returned. -/
def try_report (callResult : Except String Response) : String :=
  match callResult with
  | .error e => openai_error_warning e
  | .ok resp =>
    match resp.choices with
    | [] => openai_error_warning "list index out of range"
    | c :: _ => c.message.content

/-- Result of `generate_text_report`: the returned string, plus whether the
outbound service call was made. -/
structure GenResult where
  output : String
  apiCalled : Bool
deriving DecidableEq, Repr

/-- `generate_text_report` (source lines 55–111).  `service` maps the user
prompt to the outcome of `client.chat.completions.create` (the fixed model
name, system message and temperature are baked into the call site and do not
vary, so they are not parameters of `service`). -/
def generate_text_report (secrets : Except Unit (Option String))
    (env : Option String) (service : String → Except String Response)
    (combined : Combined) (full_text : String) : GenResult :=
  match get_openai_client secrets env with
  | none => ⟨missing_key_warning, false⟩
  | some _ =>
    let prompt := build_prompt (table_text combined) full_text
    ⟨try_report (service prompt), true⟩

/-- `total_score` as computed per record in `main` (source lines 137–142). -/
def total_score (combined : Combined) : Int :=
  (POTENTIALS.map (fun p =>
    dictGetD (dictGetD combined p []) "c1" (0 : Int) +
    dictGetD (dictGetD combined p []) "c2" (0 : Int) +
    dictGetD (dictGetD combined p []) "c3" (0 : Int))).sum

/-- The spec's explicit score accessor: the value of axis `ax` of potential
`p`, with zero substituted when the potential or the axis is missing. -/
def scoreOf (combined : Combined) (p ax : String) : Int :=
  match List.lookup p combined with
  | none => 0
  | some row =>
    match List.lookup ax row with
    | none => 0
    | some v => v

/-- The canonical format of one score-table line from its potential name and
three (already defaulted) axis values. -/
def line_format (p : String) (a b c : Int) : String :=
  p ++ ": c1=" ++ toString a ++ "  c2=" ++ toString b ++ "  c3=" ++ toString c

/-- The end-to-end example record's `combined` mapping from the spec:
only the potential Рубин is present, at scores (3, 1, 0). -/
def rubinOnly : Combined := [("Рубин", [("c1", 3), ("c2", 1), ("c3", 0)])]

/-- A service that always raises, with exception text `boom`. -/
def errService : String → Except String Response :=
  fun _ => Except.error "boom"

/-- A service that always succeeds with a single completion. -/
def okService : String → Except String Response :=
  fun _ => Except.ok ⟨[⟨⟨"готовый отчёт"⟩⟩]⟩

/-- A `combined` mapping carrying an entry keyed outside the nine
potentials. -/
def junkCombinedA : Combined :=
  [("Дракон", [("c1", 7)]), ("Рубин", [("c1", 3)])]

/-- A `combined` mapping agreeing with `junkCombinedA` on the nine
potentials and three axes, but with different junk entries. -/
def junkCombinedB : Combined :=
  [("Рубин", [("c1", 3), ("c9", 9)]), ("Лишний", [("c2", 5)])]

/-! ## Helper lemmas shared by the claim theorems -/

/-- The spec-side accessor agrees with the chain of defaulted dict reads the
source performs. -/
theorem scoreOf_eq_dictGetD (combined : Combined) (p ax : String) :
    scoreOf combined p ax = dictGetD (dictGetD combined p []) ax (0 : Int) := by
  unfold scoreOf dictGetD
  rcases hl : List.lookup p combined with _ | row
  · simp
  · rcases hr : List.lookup ax row with _ | v <;> simp [hr]

/-- Each rendered line is the canonical format applied to the three
defaulted scores of its potential. -/
theorem score_line_eq (combined : Combined) (p : String) :
    score_line combined p =
      line_format p (scoreOf combined p "c1") (scoreOf combined p "c2")
        (scoreOf combined p "c3") := by
  unfold score_line line_format
  rw [scoreOf_eq_dictGetD, scoreOf_eq_dictGetD, scoreOf_eq_dictGetD]

/-- The service-error warning splits as the warning marker followed by the
rest, the exception text at the end. -/
theorem openai_error_warning_parts (e : String) :
    openai_error_warning e = "⚠️" ++ (" Ошибка при обращении к OpenAI: " ++ e) := by
  have h : "⚠️ Ошибка при обращении к OpenAI: "
      = "⚠️" ++ " Ошибка при обращении к OpenAI: " := by decide
  unfold openai_error_warning
  rw [h, String.append_assoc]

/-- When a client was resolved, `generate_text_report` runs the guarded
service call on the built prompt. -/
theorem generate_with_client (secrets : Except Unit (Option String))
    (env : Option String) (service : String → Except String Response)
    (combined : Combined) (full_text : String)
    (h : get_openai_client secrets env ≠ none) :
    generate_text_report secrets env service combined full_text =
      ⟨try_report (service (build_prompt (table_text combined) full_text)),
        true⟩ := by
  unfold generate_text_report
  rcases hc : get_openai_client secrets env with _ | k
  · exact absurd hc h
  · rfl

/-! ## Claim theorems -/

/-- Claim C1: for every scores mapping and free text, if the outbound
service call raises, `generate_text_report` catches the exception and
returns a string equal to the formatted warning — a string starting with the
warning marker and ending in the exception's textual description — and, being
a total function into `GenResult`, never propagates the exception. -/
theorem generate_call_error_caught (secrets : Except Unit (Option String))
    (env : Option String) (service : String → Except String Response)
    (combined : Combined) (full_text : String) (e : String)
    (hclient : get_openai_client secrets env ≠ none)
    (hcall : service (build_prompt (table_text combined) full_text)
      = Except.error e) :
    (generate_text_report secrets env service combined full_text).output
        = openai_error_warning e ∧
    (∃ r, (generate_text_report secrets env service combined full_text).output
        = "⚠️" ++ r) ∧
    (∃ a, (generate_text_report secrets env service combined full_text).output
        = a ++ e) := by
  have hout : (generate_text_report secrets env service combined
      full_text).output = openai_error_warning e := by
    rw [generate_with_client secrets env service combined full_text hclient]
    simp [try_report, hcall]
  refine ⟨hout, ⟨" Ошибка при обращении к OpenAI: " ++ e, ?_⟩,
    ⟨"⚠️ Ошибка при обращении к OpenAI: ", ?_⟩⟩
  · rw [hout, openai_error_warning_parts]
  · rw [hout]; rfl

/-- Witness for C1 at a concrete failing service. -/
theorem generate_call_error_caught_witness :
    (generate_text_report (Except.ok (some "key")) none errService []
      "").output = openai_error_warning "boom" :=
  (generate_call_error_caught (Except.ok (some "key")) none errService [] ""
    "boom" (by decide) rfl).1

/-- Claim C2: when the secret store yields no value and the environment
variable is unset, `generate_text_report` returns the fixed missing-key
warning, makes no outbound call, and (being total) does not raise. -/
theorem generate_no_credential (service : String → Except String Response)
    (combined : Combined) (full_text : String) :
    (generate_text_report (Except.ok none) none service combined
        full_text).output = missing_key_warning ∧
    (generate_text_report (Except.ok none) none service combined
        full_text).apiCalled = false :=
  ⟨rfl, rfl⟩

/-- Claim C3: for every `combined` mapping the rendered score table has
exactly one line per potential — nine lines, in the canonical order of
`POTENTIALS` — and each line lists the c1, c2 and c3 values of its
potential, where a missing potential or axis entry contributes zero. -/
theorem table_lines_shape (combined : Combined) :
    (table_lines combined).length = 9 ∧
    table_lines combined = POTENTIALS.map (fun p =>
      line_format p (scoreOf combined p "c1") (scoreOf combined p "c2")
        (scoreOf combined p "c3")) ∧
    (∀ p ax, List.lookup p combined = none → scoreOf combined p ax = 0) ∧
    (∀ p row ax, List.lookup p combined = some row →
      List.lookup ax row = none → scoreOf combined p ax = 0) := by
  refine ⟨?_, ?_, ?_, ?_⟩
  · simp [table_lines, POTENTIALS]
  · exact List.map_congr_left fun p _ => score_line_eq combined p
  · intro p ax h
    simp [scoreOf, h]
  · intro p row ax h1 h2
    simp [scoreOf, h1, h2]

/-- Witness for C3 at the spec's single-potential example record. -/
theorem table_lines_shape_witness :
    (table_lines rubinOnly).length = 9 ∧
    scoreOf rubinOnly "Аметист" "c1" = 0 ∧
    scoreOf rubinOnly "Рубин" "цвет" = 0 :=
  ⟨(table_lines_shape rubinOnly).1,
   (table_lines_shape rubinOnly).2.2.1 "Аметист" "c1" (by decide),
   (table_lines_shape rubinOnly).2.2.2 "Рубин"
     [("c1", 3), ("c2", 1), ("c3", 0)] "цвет" (by decide) (by decide)⟩

/-- Claim C4: when the service call succeeds, `generate_text_report` returns
exactly the first completion's message content, unmodified. -/
theorem generate_success_verbatim (secrets : Except Unit (Option String))
    (env : Option String) (service : String → Except String Response)
    (combined : Combined) (full_text : String) (resp : Response)
    (c : Choice) (cs : List Choice)
    (hclient : get_openai_client secrets env ≠ none)
    (hcall : service (build_prompt (table_text combined) full_text)
      = Except.ok resp)
    (hchoices : resp.choices = c :: cs) :
    (generate_text_report secrets env service combined full_text).output
      = c.message.content := by
  rw [generate_with_client secrets env service combined full_text hclient]
  simp [try_report, hcall, hchoices]

/-- Witness for C4 at a concrete succeeding service. -/
theorem generate_success_verbatim_witness :
    (generate_text_report (Except.ok (some "key")) none okService rubinOnly
      "текст").output = "готовый отчёт" :=
  generate_success_verbatim (Except.ok (some "key")) none okService rubinOnly
    "текст" ⟨[⟨⟨"готовый отчёт"⟩⟩]⟩ ⟨⟨"готовый отчёт"⟩⟩ []
    (by decide) rfl rfl

/-- Claim C5 counterexample: a store state whose file exists and holds valid
JSON that is not an ordered collection (the empty JSON object, file content
of two brace characters): `load_results` returns that object as-is, not an
empty sequence, refuting the claim as stated. -/
theorem load_results_wrong_shape_counterexample :
    Json.isArr (load_results (some (Except.ok (Json.obj [])))) = false ∧
    load_results (some (Except.ok (Json.obj []))) ≠ Json.arr [] := by
  refine ⟨rfl, ?_⟩
  intro h
  exact Json.noConfusion (show Json.obj [] = Json.arr [] from h)

/-- Claim C5 amended: when the file exists but its content is not valid JSON
(the parse raises), `load_results` returns the empty sequence; content that
parses as JSON is returned exactly as parsed, even when it is not an ordered
collection. -/
theorem load_results_parse_amended :
    load_results (some (Except.error ())) = Json.arr [] ∧
    (∀ j : Json, load_results (some (Except.ok j)) = j) :=
  ⟨rfl, fun _ => rfl⟩

/-- Claim C6: when the backing store file does not exist, `load_results`
returns the empty sequence (and, being total, never raises). -/
theorem load_results_absent_file : load_results none = Json.arr [] := rfl

/-- Claim C7: the overview total equals the sum, over the nine potentials
and the three axes, of the zero-defaulted scores; at the spec's example
record with only Рубин at (3, 1, 0) the total is 4. -/
theorem total_score_spec :
    (∀ combined : Combined, total_score combined =
      (POTENTIALS.map (fun p => (COLUMNS.map (scoreOf combined p)).sum)).sum) ∧
    total_score rubinOnly = 4 := by
  constructor
  · intro combined
    unfold total_score
    refine congrArg List.sum (List.map_congr_left ?_)
    intro p _
    simp [COLUMNS, scoreOf_eq_dictGetD, add_assoc]
  · decide

/-- Claim C8: a truthy credential in the secret store wins: the client is
built from it and the environment variable (arbitrary here) has no effect. -/
theorem secret_store_priority (k : String) (env : Option String)
    (hk : k ≠ "") :
    get_openai_client (Except.ok (some k)) env = some k := by
  have ht : truthy (some k) = true := bne_iff_ne.mpr hk
  simp [get_openai_client, ht]

/-- Witness for C8: the secret-store key wins over a set environment
variable. -/
theorem secret_store_priority_witness :
    get_openai_client (Except.ok (some "sk-test")) (some "env-key")
      = some "sk-test" :=
  secret_store_priority "sk-test" (some "env-key") (by decide)

/-- Claim C9: two `combined` mappings that agree on the nine potentials and
three axes (whatever junk entries either carries besides) render the same
score table and the same overview total. -/
theorem irrelevant_keys_ignored (cA cB : Combined)
    (h : ∀ p ∈ POTENTIALS, ∀ ax ∈ COLUMNS, scoreOf cA p ax = scoreOf cB p ax) :
    table_lines cA = table_lines cB ∧ total_score cA = total_score cB := by
  have hsc : ∀ p ∈ POTENTIALS, ∀ ax ∈ COLUMNS,
      dictGetD (dictGetD cA p []) ax (0 : Int)
        = dictGetD (dictGetD cB p []) ax 0 := by
    intro p hp ax hax
    rw [← scoreOf_eq_dictGetD, ← scoreOf_eq_dictGetD]
    exact h p hp ax hax
  constructor
  · refine List.map_congr_left ?_
    intro p hp
    rw [score_line_eq, score_line_eq,
      h p hp "c1" (by simp [COLUMNS]), h p hp "c2" (by simp [COLUMNS]),
      h p hp "c3" (by simp [COLUMNS])]
  · unfold total_score
    refine congrArg List.sum (List.map_congr_left ?_)
    intro p hp
    rw [hsc p hp "c1" (by simp [COLUMNS]), hsc p hp "c2" (by simp [COLUMNS]),
      hsc p hp "c3" (by simp [COLUMNS])]

/-- Witness for C9: two concrete mappings differing only in junk entries. -/
theorem irrelevant_keys_ignored_witness :
    table_lines junkCombinedA = table_lines junkCombinedB ∧
    total_score junkCombinedA = total_score junkCombinedB :=
  irrelevant_keys_ignored junkCombinedA junkCombinedB (by decide)

/-- Claim C10: `get_openai_client` is total (it returns an `Option`, never
raising); a secret-store access that raises behaves exactly like an absent
secret, falling back to the environment variable; and an empty-string
credential at either source behaves exactly like an absent one. -/
theorem get_openai_client_robust (env : Option String)
    (secrets : Except Unit (Option String)) :
    get_openai_client (Except.error ()) env
      = get_openai_client (Except.ok none) env ∧
    get_openai_client (Except.ok (some "")) env
      = get_openai_client (Except.ok none) env ∧
    get_openai_client secrets (some "") = get_openai_client secrets none := by
  refine ⟨rfl, rfl, ?_⟩
  rcases secrets with e | v
  · rfl
  · rcases v with _ | s
    · rfl
    · by_cases hs : s = ""
      · subst hs
        rfl
      · have ht : truthy (some s) = true := bne_iff_ne.mpr hs
        simp [get_openai_client, ht]

end DeepIdentity
